import Mathlib

/-!
Verification of the JSON-RPC-over-stdio protocol bridge duplicated across
the repository's agent scripts (`01_Subnet_Calculator/agent.py`,
`02_pyATS/agent.py`, `02_pyATS/app.py`, and the top-level `agent.py`).

The bridge is embedded shallowly:

* a JSON value type `Json` stands for the Python objects produced by
  `json.loads`;
* the child's stdout is a list of `Line`s; a `Line` records the three
  outcomes of `readline().strip()` + `json.loads(line)` that the Python
  code distinguishes: whitespace-only (`blank`), non-blank but not valid
  JSON (`garbage`), and a decoded value (`json`);
* the wall-clock timeout of the polling loops is modelled by a fuel
  parameter counting the loop iterations that fit inside the deadline:
  the deadline check `time.time() - start < timeout` at the top of each
  `while` becomes the fuel running out.  An exhausted line list models
  end-of-file (after the child exits, `readline` returns an empty string
  immediately, which the loops treat exactly like a blank line);
* raised Python exceptions become explicit result constructors that
  record the exception class and its argument.
-/

/-- A decoded JSON value, as produced by Python's `json.loads`. -/
inductive Json where
  | null
  | bool (b : Bool)
  | num (n : Int)
  | str (s : String)
  | arr (elems : List Json)
  | obj (fields : List (String × Json))

/-- Key lookup in an association list, first match wins — the embedding of
Python `dict` access on the decoded object (JSON object keys are unique, so
first-match lookup coincides with `dict` lookup). -/
def lookupField : List (String × Json) → String → Option Json
  | [], _ => none
  | (k, v) :: rest, key => if k = key then some v else lookupField rest key

/-- `d.get(key)` on a decoded value: `some` of the field on an object that has
the key, `none` otherwise. -/
def Json.get? : Json → String → Option Json
  | .obj fields, key => lookupField fields key
  | _, _ => none

/-- `d.get(key, default)` on a decoded value. -/
def Json.getD (j : Json) (key : String) (d : Json) : Json :=
  (j.get? key).getD d

/-- `key in d`: Python's membership test on the decoded object. -/
def Json.hasKey (j : Json) (key : String) : Bool :=
  (j.get? key).isSome

/-- One line read from the child's stdout, classified the way the Python
receive loops classify it: whitespace-only, undecodable, or decoded JSON. -/
inductive Line where
  | blank
  | garbage
  | json (j : Json)

/-- Lines the receive loops skip over: blank or undecodable. -/
def Line.isNoise : Line → Bool
  | .json _ => false
  | _ => true

/-- `response.get("id") == rid` — Python compares the decoded `id` field
(`None` when absent) with the integer request id. -/
def idMatches (resp : Json) (rid : Int) : Bool :=
  match resp.get? "id" with
  | some (.num k) => k == rid
  | _ => false

/-- Outcome of one `mcp_recv` call: a decoded value, or the `TimeoutError`
the function raises when the deadline elapses. -/
inductive RecvResult where
  | ok (resp : Json)
  | timeout

/-- `mcp_recv(timeout)` from `01_Subnet_Calculator/agent.py` lines 58–68
(identical in `02_pyATS/agent.py` and `02_pyATS/app.py`): loop while the
deadline has not elapsed, read a line, return the first line that decodes as
JSON, silently skip blank and undecodable lines, and raise
`TimeoutError("No response from MCP server")` once the deadline passes.
`fuel` counts the loop iterations that fit in the deadline; the empty list is
end-of-file, where `readline` keeps returning the empty (blank) string. -/
def mcp_recv : Nat → List Line → RecvResult × List Line
  | 0, s => (.timeout, s)
  | fuel + 1, [] => mcp_recv fuel []
  | fuel + 1, .blank :: rest => mcp_recv fuel rest
  | fuel + 1, .garbage :: rest => mcp_recv fuel rest
  | _ + 1, .json j :: rest => (.ok j, rest)

/-- The argument object the code passes when raising `RuntimeError`. -/
inductive RunArg where
  /-- the decoded error object itself: `RuntimeError(resp["error"])` -/
  | payload (j : Json)
  /-- a fixed message with the error object formatted into it:
  `RuntimeError(f"MCP Error: {response['error']}")` -/
  | formatted (head : String) (j : Json)
  /-- a plain string message -/
  | plain (s : String)

/-- A raised Python exception, recording its class and argument. -/
inductive PyExc where
  | runtimeError (arg : RunArg)
  | timeoutError (msg : String)

/-- The Python exception class of a raised exception. -/
def PyExc.pyClass : PyExc → String
  | .runtimeError _ => "RuntimeError"
  | .timeoutError _ => "TimeoutError"

/-- Outcome of a bridge call: a returned value or a raised exception. -/
inductive CallResult where
  | ok (result : Json)
  | exc (e : PyExc)

/-- The receive loop of `call_tool` from `01_Subnet_Calculator/agent.py`
lines 116–121 (identical in `02_pyATS/agent.py` and `02_pyATS/app.py`):
`while True: resp = mcp_recv(); ...`.  Each iteration calls `mcp_recv` with
a fresh deadline (`recvFuel`).  A response whose id matches returns
`resp.get("result", {})`, or raises `RuntimeError(resp["error"])` when the
envelope has an `error` field; a response with any other id is dropped and
the loop continues.  A `TimeoutError` from `mcp_recv` propagates out.
`attempts` bounds the number of iterations of the unbounded `while True`
(any bound exceeding the stream length is exhaustive, because every
continuing iteration consumes at least one line; theorems always supply
enough, so the fuel-out base case is reached only through a genuine
timeout on the exhausted stream). -/
def call_tool_loop : Nat → Nat → Int → List Line → CallResult × List Line
  | 0, _, _, s => (.exc (.timeoutError "No response from MCP server"), s)
  | attempts + 1, recvFuel, rid, s =>
    match mcp_recv recvFuel s with
    | (.timeout, s') => (.exc (.timeoutError "No response from MCP server"), s')
    | (.ok resp, s') =>
      if idMatches resp rid then
        match resp.get? "error" with
        | some e => (.exc (.runtimeError (.payload e)), s')
        | none => (.ok (resp.getD "result" (.obj [])), s')
      else call_tool_loop attempts recvFuel rid s'

/-- The receive loop of `get_tool_list` from `01_Subnet_Calculator/agent.py`
lines 98–102 (identical in the pyATS agents): loop until a response with the
matching id arrives, then return `resp.get("result", {}).get("tools", [])`.
There is no `error` branch in this loop. -/
def get_tool_list_loop : Nat → Nat → Int → List Line → CallResult × List Line
  | 0, _, _, s => (.exc (.timeoutError "No response from MCP server"), s)
  | attempts + 1, recvFuel, rid, s =>
    match mcp_recv recvFuel s with
    | (.timeout, s') => (.exc (.timeoutError "No response from MCP server"), s')
    | (.ok resp, s') =>
      if idMatches resp rid then
        (.ok ((resp.getD "result" (.obj [])).getD "tools" (.arr [])), s')
      else get_tool_list_loop attempts recvFuel rid s'

/-- The body of `call_subnet_calculator` from the top-level `agent.py`
lines 97–117: a single `while time.time() - start_time < timeout` loop with
one deadline for the whole call.  Blank lines, undecodable lines and
responses with a non-matching id are all skipped inside the same loop.  A
matching envelope with an `error` field raises
`RuntimeError(f"MCP Error: {response['error']}")`; a matching envelope
returns `response.get("result", {})`; when the deadline elapses the function
raises `RuntimeError("Timeout waiting for MCP response")` — a `RuntimeError`
in both failure cases. -/
def call_subnet_calculator_loop (rid : Int) : Nat → List Line → CallResult × List Line
  | 0, s => (.exc (.runtimeError (.plain "Timeout waiting for MCP response")), s)
  | fuel + 1, [] => call_subnet_calculator_loop rid fuel []
  | fuel + 1, .blank :: rest => call_subnet_calculator_loop rid fuel rest
  | fuel + 1, .garbage :: rest => call_subnet_calculator_loop rid fuel rest
  | fuel + 1, .json resp :: rest =>
    if idMatches resp rid then
      match resp.get? "error" with
      | some e => (.exc (.runtimeError (.formatted "MCP Error: " e)), rest)
      | none => (.ok (resp.getD "result" (.obj [])), rest)
    else call_subnet_calculator_loop rid fuel rest

/-- `next_id()` from `01_Subnet_Calculator/agent.py` lines 46–50 (identical
in `02_pyATS/agent.py` and `02_pyATS/app.py`): increment the module-level
counter and return it.  Embedded as an explicit state transition on the
counter value. -/
def next_id (requestId : Int) : Int × Int :=
  (requestId + 1, requestId + 1)

/-- The ids handed out by `k` successive `next_id()` calls starting from
counter value `c`, in order. -/
def idsFrom (c : Int) : Nat → List Int
  | 0 => []
  | k + 1 => (next_id c).1 :: idsFrom (next_id c).2 k

/-- Whether the decoded value is a Python `dict` (a JSON object) — the
values on which `.get(...)` is defined; on anything else `.get` raises
`AttributeError`. -/
def Json.isObj : Json → Bool
  | .obj _ => true
  | _ => false

/-- Outcome of converting one tool descriptor: the produced spec, or the
Python exception the conversion raises. -/
inductive ToolConvResult where
  /-- the successfully built function spec -/
  | ok (spec : Json)
  /-- `KeyError`: a bare subscript `tool[key]` on a dict missing `key` -/
  | keyError (key : String)
  /-- `AttributeError`: `.get(...)` called on a value that is not a dict -/
  | attributeError

/-- `tool_to_openai(tool)` from `01_Subnet_Calculator/agent.py` lines
124–135 (identical in `02_pyATS/agent.py`; `02_pyATS/app.py` wraps the same
fields in one extra `{"type": "function", "function": ...}` layer).
`tool.get("inputSchema", {})`, `tool.get("description", "")`,
`schema.get("properties", {})` and `schema.get("required", [])` all default
when the key is absent, but `tool["name"]` is a bare subscript and raises
`KeyError` when the key is absent, and `.get` on a non-dict raises
`AttributeError`: on a non-dict descriptor the very first line
(`tool.get("inputSchema", {})`) raises, and when `inputSchema` is present
but not a dict, `schema.get("properties", {})` raises.  The Python dict
literal evaluates its values in order, so `tool["name"]` (and its possible
`KeyError`) comes before the `properties` access (and its possible
`AttributeError`). -/
def tool_to_openai : Json → ToolConvResult
  | .obj fs =>
    let schema := (Json.obj fs).getD "inputSchema" (.obj [])
    match (Json.obj fs).get? "name" with
    | none => .keyError "name"
    | some nm =>
      match schema with
      | .obj sfs =>
        .ok (.obj [
          ("name", nm),
          ("description", (Json.obj fs).getD "description" (.str "")),
          ("parameters", .obj [
            ("type", .str "object"),
            ("properties", (Json.obj sfs).getD "properties" (.obj [])),
            ("required", (Json.obj sfs).getD "required" (.arr []))])])
      | _ => .attributeError
  | _ => .attributeError

/-- A well-formed success envelope `{"jsonrpc": "2.0", "id": rid, "result": r}`. -/
def respWithResult (rid : Int) (r : Json) : Json :=
  .obj [("jsonrpc", .str "2.0"), ("id", .num rid), ("result", r)]

/-- A well-formed error envelope `{"jsonrpc": "2.0", "id": rid, "error": e}`. -/
def respWithError (rid : Int) (e : Json) : Json :=
  .obj [("jsonrpc", .str "2.0"), ("id", .num rid), ("error", e)]

/-- Everything observable about the bridge's module-level state: the request
id counter, every message written to the child's stdin in order, and the
lines still unread on the child's stdout. -/
structure BridgeState where
  requestId : Int
  sentMessages : List Json
  stdoutLines : List Line

/-- The handshake request built in `01_Subnet_Calculator/agent.py`
lines 74–83. -/
def handshakeRequest (rid : Int) : Json :=
  .obj [
    ("jsonrpc", .str "2.0"),
    ("id", .num rid),
    ("method", .str "initialize"),
    ("params", .obj [
      ("protocolVersion", .str "2024-11-05"),
      ("capabilities", .obj []),
      ("clientInfo", .obj [("name", .str "subnet-agent"), ("version", .str "1.0")])])]

/-- The `notifications/initialized` notification sent in
`01_Subnet_Calculator/agent.py` lines 85–88 (it carries no id). -/
def handshakeNotice : Json :=
  .obj [("jsonrpc", .str "2.0"), ("method", .str "notifications/initialized")]

/-- The `initialize_mcp` handshake of `01_Subnet_Calculator/agent.py`
lines 73–88 (the top-level `agent.py` lines 41–77 is the same shape): send
the handshake request, `time.sleep(0.1)`, send the `notifications/initialized`
notification.  The function performs no read at all — `stdoutLines` passes
through untouched. -/
def init_mcp (s : BridgeState) : BridgeState :=
  let rid := s.requestId + 1
  { requestId := rid
    sentMessages := s.sentMessages ++ [handshakeRequest rid, handshakeNotice]
    stdoutLines := s.stdoutLines }

/-- The `tools/list` request built in `get_tool_list`. -/
def toolsListRequest (rid : Int) : Json :=
  .obj [("jsonrpc", .str "2.0"), ("id", .num rid), ("method", .str "tools/list")]

/-- `get_tool_list()` from `01_Subnet_Calculator/agent.py` lines 91–102 as a
state transformer: allocate the next id, write the `tools/list` request, then
run the receive loop. -/
def get_tool_list (attempts recvFuel : Nat) (s : BridgeState) : CallResult × BridgeState :=
  let rid := s.requestId + 1
  let afterSend : BridgeState :=
    { requestId := rid
      sentMessages := s.sentMessages ++ [toolsListRequest rid]
      stdoutLines := s.stdoutLines }
  let (r, rest) := get_tool_list_loop attempts recvFuel rid afterSend.stdoutLines
  (r, { afterSend with stdoutLines := rest })

/-- On an exhausted stream (child exited, `readline` returns only the empty
string) `mcp_recv` burns its whole deadline and raises `TimeoutError`. -/
theorem mcp_recv_nil : ∀ fuel : Nat, mcp_recv fuel [] = (.timeout, []) := by
  intro fuel
  induction fuel with
  | zero => rfl
  | succ n ih => exact ih

/-- `call_tool`'s receive loop on an exhausted stream propagates the
`TimeoutError` raised by `mcp_recv`. -/
theorem call_tool_loop_nil (a rf : Nat) (rid : Int) :
    call_tool_loop a rf rid [] = (.exc (.timeoutError "No response from MCP server"), []) := by
  cases a with
  | zero => rfl
  | succ n => simp [call_tool_loop, mcp_recv_nil]

/-- `call_subnet_calculator` on an exhausted stream burns its single deadline
and raises `RuntimeError("Timeout waiting for MCP response")`. -/
theorem call_subnet_calculator_loop_nil (rid : Int) :
    ∀ fuel : Nat, call_subnet_calculator_loop rid fuel []
      = (.exc (.runtimeError (.plain "Timeout waiting for MCP response")), []) := by
  intro fuel
  induction fuel with
  | zero => rfl
  | succ n ih => exact ih

/-- A stream of only blank and undecodable lines never yields a decoded
value: `mcp_recv` times out. -/
theorem mcp_recv_noise : ∀ (fuel : Nat) (s : List Line),
    (∀ l ∈ s, l.isNoise = true) → (mcp_recv fuel s).1 = RecvResult.timeout := by
  intro fuel
  induction fuel with
  | zero => intro s _; rfl
  | succ n ih =>
    intro s h
    cases s with
    | nil => exact ih [] h
    | cons head rest =>
      cases head with
      | blank => exact ih rest fun l hl => h l (List.mem_cons_of_mem _ hl)
      | garbage => exact ih rest fun l hl => h l (List.mem_cons_of_mem _ hl)
      | json j =>
        have hj := h (.json j) (List.mem_cons_self _ _)
        simp [Line.isNoise] at hj

/-- A stream of only blank and undecodable lines makes
`call_subnet_calculator` burn its deadline and raise the generic
`RuntimeError`. -/
theorem call_subnet_calculator_loop_noise (rid : Int) : ∀ (fuel : Nat) (s : List Line),
    (∀ l ∈ s, l.isNoise = true) →
    (call_subnet_calculator_loop rid fuel s).1
      = CallResult.exc (.runtimeError (.plain "Timeout waiting for MCP response")) := by
  intro fuel
  induction fuel with
  | zero => intro s _; rfl
  | succ n ih =>
    intro s h
    cases s with
    | nil => exact ih [] h
    | cons head rest =>
      cases head with
      | blank => exact ih rest fun l hl => h l (List.mem_cons_of_mem _ hl)
      | garbage => exact ih rest fun l hl => h l (List.mem_cons_of_mem _ hl)
      | json j =>
        have hj := h (.json j) (List.mem_cons_self _ _)
        simp [Line.isNoise] at hj

/-- Every id handed out by a run of `next_id` calls starting above counter
value `c` strictly exceeds `c`. -/
theorem mem_idsFrom_gt : ∀ (k : Nat) (c x : Int), x ∈ idsFrom c k → c < x := by
  intro k
  induction k with
  | zero => intro c x h; simp [idsFrom] at h
  | succ n ih =>
    intro c x h
    simp only [idsFrom, next_id, List.mem_cons] at h
    rcases h with h | h
    · omega
    · have := ih (c + 1) x h
      omega

/-- C1: awaiting id 1 on a stream where id 2's response arrives first still
returns id 1's result (first half of the claim), but the id 2 response is
consumed and discarded in the process — the stream is left empty, and a
subsequent await for id 2 raises `TimeoutError` instead of retrieving it,
contradicting the claim's second half ("remains retrievable"). -/
theorem c1_interleaved_response_discarded :
    call_tool_loop 2 1 1
        [.json (respWithResult 2 (Json.str "r2")), .json (respWithResult 1 (Json.str "r1"))]
      = (.ok (Json.str "r1"), [])
    ∧ call_tool_loop 5 5 2 [] = (.exc (.timeoutError "No response from MCP server"), []) :=
  ⟨rfl, rfl⟩

/-- C2: starting from a fresh session whose stdout already holds the child's
response to the handshake request, `init_mcp` (the source's
`initialize_mcp`) sends the handshake request and the
`notifications/initialized` notification while reading nothing — the
response is still unread when the notification goes out — and the following
`get_tool_list` writes the `tools/list` request and only then consumes (and
drops) that response inside its receive loop.  So the response is never
received before the notification, and tool traffic is written before the
response is received. -/
theorem c2_handshake_sends_before_receiving :
    (init_mcp ⟨0, [], [.json (respWithResult 1 (Json.obj []))]⟩).sentMessages
        = [handshakeRequest 1, handshakeNotice]
    ∧ (init_mcp ⟨0, [], [.json (respWithResult 1 (Json.obj []))]⟩).stdoutLines
        = [.json (respWithResult 1 (Json.obj []))]
    ∧ ((get_tool_list 3 3 (init_mcp ⟨0, [], [.json (respWithResult 1 (Json.obj []))]⟩)).2).sentMessages
        = [handshakeRequest 1, handshakeNotice, toolsListRequest 2]
    ∧ ((get_tool_list 3 3 (init_mcp ⟨0, [], [.json (respWithResult 1 (Json.obj []))]⟩)).2).stdoutLines
        = [] :=
  ⟨rfl, rfl, rfl, rfl⟩

/-- C3: the ids handed out by successive `next_id` calls are pairwise
strictly increasing in issue order — so id(n+1) > id(n) for sequential
submissions and no id is ever reused within a session (the counter is only
ever incremented; nothing resets it when a call resolves or times out). -/
theorem c3_ids_strictly_increasing_never_reused :
    ∀ (c : Int) (k : Nat), (idsFrom c k).Pairwise (· < ·) := by
  intro c k
  induction k generalizing c with
  | zero => simp [idsFrom]
  | succ n ih =>
    simp only [idsFrom, next_id, List.pairwise_cons]
    exact ⟨fun x hx => mem_idsFrom_gt n (c + 1) x hx, ih (c + 1)⟩

/-- C4: in `call_subnet_calculator` the remote-reported error and the
deadline expiry surface as exceptions of the same Python class,
`RuntimeError` — the remote-error failure kind is conflated with the
deadline-expiry failure kind (which is itself not `TimeoutError` there),
refuting the claim for this cited call path. -/
theorem c4_subnet_error_kind_conflated :
    (call_subnet_calculator_loop 1 1 [.json (respWithError 1 (Json.str "boom"))]).1
        = .exc (.runtimeError (.formatted "MCP Error: " (Json.str "boom")))
    ∧ (call_subnet_calculator_loop 1 3 []).1
        = .exc (.runtimeError (.plain "Timeout waiting for MCP response"))
    ∧ (PyExc.runtimeError (.formatted "MCP Error: " (Json.str "boom"))).pyClass
        = (PyExc.runtimeError (.plain "Timeout waiting for MCP response")).pyClass :=
  ⟨rfl, rfl, rfl⟩

/-- C4 amended: in `call_tool` a matching envelope with an `error` field
raises `RuntimeError` carrying the remote payload, a different exception
class from the `TimeoutError` raised on deadline expiry; in
`call_subnet_calculator` both the remote error and deadline expiry raise
`RuntimeError` — the same class, distinguished only by message. -/
theorem c4_amended_error_kinds :
    ∀ (e : Json) (rest : List Line) (a rf : Nat),
      call_tool_loop (a + 1) (rf + 1) 1 (.json (respWithError 1 e) :: rest)
          = (.exc (.runtimeError (.payload e)), rest)
      ∧ (call_tool_loop a rf 1 []).1 = .exc (.timeoutError "No response from MCP server")
      ∧ call_subnet_calculator_loop 1 (rf + 1) (.json (respWithError 1 e) :: rest)
          = (.exc (.runtimeError (.formatted "MCP Error: " e)), rest)
      ∧ call_subnet_calculator_loop 1 rf []
          = (.exc (.runtimeError (.plain "Timeout waiting for MCP response")), [])
      ∧ (PyExc.runtimeError (.payload e)).pyClass
          ≠ (PyExc.timeoutError "No response from MCP server").pyClass
      ∧ (PyExc.runtimeError (.formatted "MCP Error: " e)).pyClass
          = (PyExc.runtimeError (.plain "Timeout waiting for MCP response")).pyClass := by
  intro e rest a rf
  refine ⟨rfl, ?_, rfl, call_subnet_calculator_loop_nil 1 rf, ?_, rfl⟩
  · rw [call_tool_loop_nil]
  · simp [PyExc.pyClass]

/-- C5: after the child process exits, reads see only end-of-file; the
receive path fails with `TimeoutError` (the only failure `mcp_recv` can
raise), not with any transport-fault kind — refuting the claimed
`TransportError`/`Failed`-state behavior at this concrete input. -/
theorem c5_read_after_exit_is_timeout :
    mcp_recv 200 [] = (.timeout, []) := rfl

/-- C5 amended: if the child process exits mid-session, every subsequent
read sees end-of-file, which `mcp_recv` treats like blank input; once the
deadline elapses it fails with `TimeoutError`.  The code has no
`TransportError` kind and no session state machine (so no `Failed` state);
a write to the closed pipe surfaces as a raw OS broken-pipe exception. -/
theorem c5_amended_eof_read_times_out :
    ∀ fuel : Nat, mcp_recv fuel [] = (.timeout, []) := mcp_recv_nil

/-- C6: `call_subnet_calculator` fails on deadline expiry with a generic
`RuntimeError` — not a dedicated timeout kind — refuting the claim for this
cited await path. -/
theorem c6_subnet_timeout_is_generic_runtime_error :
    call_subnet_calculator_loop 1 5 []
        = (.exc (.runtimeError (.plain "Timeout waiting for MCP response")), [])
    ∧ (PyExc.runtimeError (.plain "Timeout waiting for MCP response")).pyClass
        = "RuntimeError" :=
  ⟨rfl, rfl⟩

/-- C6 amended: when nothing decodable arrives within the deadline,
`mcp_recv` raises the dedicated `TimeoutError` and `call_tool` propagates
it, while `call_subnet_calculator` raises a generic `RuntimeError` on
deadline expiry; the code keeps no pending-call registry, so nothing is
removed or left registered. -/
theorem c6_amended_timeout_kinds :
    ∀ (a rf fuel : Nat) (rid : Int) (s : List Line),
      (∀ l ∈ s, l.isNoise = true) →
      (mcp_recv rf s).1 = RecvResult.timeout
      ∧ (call_tool_loop a rf rid s).1 = .exc (.timeoutError "No response from MCP server")
      ∧ (call_subnet_calculator_loop rid fuel s).1
          = .exc (.runtimeError (.plain "Timeout waiting for MCP response")) := by
  intro a rf fuel rid s h
  refine ⟨mcp_recv_noise rf s h, ?_, call_subnet_calculator_loop_noise rid fuel s h⟩
  cases a with
  | zero => rfl
  | succ n =>
    have hm := mcp_recv_noise rf s h
    rcases heq : mcp_recv rf s with ⟨r, s'⟩
    rw [heq] at hm
    simp only at hm
    subst hm
    simp [call_tool_loop, heq]

/-- C6 amended, witness: concrete noise stream. -/
theorem c6_amended_timeout_kinds_witness :
    (∀ l ∈ ([Line.blank, Line.garbage] : List Line), l.isNoise = true)
    ∧ ((mcp_recv 7 [Line.blank, Line.garbage]).1 = RecvResult.timeout
       ∧ (call_tool_loop 4 7 1 [Line.blank, Line.garbage]).1
           = .exc (.timeoutError "No response from MCP server")
       ∧ (call_subnet_calculator_loop 1 9 [Line.blank, Line.garbage]).1
           = .exc (.runtimeError (.plain "Timeout waiting for MCP response"))) :=
  ⟨by decide, c6_amended_timeout_kinds 4 7 9 1 [Line.blank, Line.garbage] (by decide)⟩

/-- C7: a tool descriptor with a perfectly well-formed input schema but no
`name` field makes `tool_to_openai` fail (`tool["name"]` raises `KeyError`)
instead of degrading gracefully — refuting the claim's "missing name" case —
and a descriptor whose `inputSchema` is present but not an object makes
`schema.get("properties", {})` raise `AttributeError` — refuting the
claim's "malformed schema field" case as well. -/
theorem c7_missing_name_or_malformed_schema_fails :
    tool_to_openai (Json.obj [
        ("description", Json.str "Calculate subnet details"),
        ("inputSchema", Json.obj [
          ("properties", Json.obj [("cidr", Json.obj [("type", Json.str "string")])]),
          ("required", Json.arr [Json.str "cidr"])])])
      = .keyError "name"
    ∧ tool_to_openai (Json.obj [
        ("name", Json.str "subnet_calculator"),
        ("inputSchema", Json.str "not-an-object")])
      = .attributeError :=
  ⟨rfl, rfl⟩

/-- C7 amended: `tool_to_openai` is a pure deterministic transform; each of
the listed absences degrades gracefully on its own: (i) a missing
`inputSchema` yields the empty property set and empty required list whatever
the description; (ii) with an object `inputSchema` present, a missing
`properties` or `required` inside it defaults independently (the conclusion
keeps each extracted by its own `.get` default); (iii) a missing
`description` alone defaults to the empty string with everything else
intact.  But (iv) an `inputSchema` that is present and not an object raises
`AttributeError`, and a missing `name` raises `KeyError` (the
counterexample) — the conversion fails rather than degrading in those
cases. -/
theorem c7_amended_graceful_defaults :
    ∀ (fields : List (String × Json)) (nm : Json),
      (Json.obj fields).get? "name" = some nm →
      ((Json.obj fields).get? "inputSchema" = none →
        tool_to_openai (.obj fields) = .ok (.obj [
          ("name", nm),
          ("description", (Json.obj fields).getD "description" (.str "")),
          ("parameters", .obj [
            ("type", Json.str "object"),
            ("properties", Json.obj []),
            ("required", Json.arr [])])]))
      ∧ (∀ sfields : List (String × Json),
          (Json.obj fields).get? "inputSchema" = some (.obj sfields) →
          tool_to_openai (.obj fields) = .ok (.obj [
            ("name", nm),
            ("description", (Json.obj fields).getD "description" (.str "")),
            ("parameters", .obj [
              ("type", Json.str "object"),
              ("properties", (Json.obj sfields).getD "properties" (.obj [])),
              ("required", (Json.obj sfields).getD "required" (.arr []))])]))
      ∧ (∀ sfields : List (String × Json),
          (Json.obj fields).get? "inputSchema" = some (.obj sfields) →
          (Json.obj fields).get? "description" = none →
          tool_to_openai (.obj fields) = .ok (.obj [
            ("name", nm),
            ("description", Json.str ""),
            ("parameters", .obj [
              ("type", Json.str "object"),
              ("properties", (Json.obj sfields).getD "properties" (.obj [])),
              ("required", (Json.obj sfields).getD "required" (.arr []))])]))
      ∧ (∀ sch : Json,
          (Json.obj fields).get? "inputSchema" = some sch →
          sch.isObj = false →
          tool_to_openai (.obj fields) = .attributeError) := by
  intro fields nm hname
  refine ⟨?_, ?_, ?_, ?_⟩
  · intro h2
    have e2 : (Json.obj fields).getD "inputSchema" (.obj []) = Json.obj [] := by
      simp [Json.getD, h2]
    simp only [tool_to_openai, e2, hname]
    rfl
  · intro sfields h2
    have e2 : (Json.obj fields).getD "inputSchema" (.obj []) = Json.obj sfields := by
      simp [Json.getD, h2]
    simp only [tool_to_openai, e2, hname]
  · intro sfields h2 h3
    have e2 : (Json.obj fields).getD "inputSchema" (.obj []) = Json.obj sfields := by
      simp [Json.getD, h2]
    have e3 : (Json.obj fields).getD "description" (.str "") = Json.str "" := by
      simp [Json.getD, h3]
    simp only [tool_to_openai, e2, e3, hname]
  · intro sch h2 hno
    have e2 : (Json.obj fields).getD "inputSchema" (.obj []) = sch := by
      simp [Json.getD, h2]
    simp only [tool_to_openai, e2, hname]
    cases sch
    case obj sfs => simp [Json.isObj] at hno
    all_goals rfl

/-- C7 amended, witness: a descriptor whose object `inputSchema` is missing
`properties` (case ii, with the description also absent and defaulting), and
a descriptor with a non-object `inputSchema` (case iv). -/
theorem c7_amended_graceful_defaults_witness :
    tool_to_openai (Json.obj [("name", Json.str "subnet_calculator"),
        ("inputSchema", Json.obj [("required", Json.arr [Json.str "cidr"])])])
      = .ok (.obj [
          ("name", Json.str "subnet_calculator"),
          ("description", Json.str ""),
          ("parameters", .obj [
            ("type", Json.str "object"),
            ("properties", Json.obj []),
            ("required", Json.arr [Json.str "cidr"])])])
    ∧ tool_to_openai (Json.obj [("name", Json.str "subnet_calculator"),
        ("inputSchema", Json.str "broken")])
      = .attributeError := by
  constructor
  · exact (c7_amended_graceful_defaults
      [("name", Json.str "subnet_calculator"),
       ("inputSchema", Json.obj [("required", Json.arr [Json.str "cidr"])])]
      (Json.str "subnet_calculator") rfl).2.1 _ rfl
  · exact (c7_amended_graceful_defaults
      [("name", Json.str "subnet_calculator"), ("inputSchema", Json.str "broken")]
      (Json.str "subnet_calculator") rfl).2.2.2 _ rfl rfl

/-- C8: a blank line or an undecodable line at the head of the stream is
skipped: the receive outcome is exactly that of continuing on the rest of
the stream (with one deadline tick consumed) — the line itself never
produces an error or ends the session. -/
theorem c8_noise_lines_skipped :
    ∀ (fuel : Nat) (rest : List Line),
      mcp_recv (fuel + 1) (Line.blank :: rest) = mcp_recv fuel rest
      ∧ mcp_recv (fuel + 1) (Line.garbage :: rest) = mcp_recv fuel rest :=
  fun _ _ => ⟨rfl, rfl⟩

/-- C10: a matching envelope with neither an `error` field nor a `result`
field makes `call_tool` return the empty object and `get_tool_list` return
the empty list; the absent `result` never raises. -/
theorem c10_missing_result_defaults_to_empty :
    ∀ (a rf : Nat) (rid : Int) (resp : Json) (rest : List Line),
      idMatches resp rid = true →
      resp.get? "error" = none →
      resp.get? "result" = none →
      call_tool_loop (a + 1) (rf + 1) rid (.json resp :: rest) = (.ok (Json.obj []), rest)
      ∧ get_tool_list_loop (a + 1) (rf + 1) rid (.json resp :: rest)
          = (.ok (Json.arr []), rest) := by
  intro a rf rid resp rest hid herr hres
  have eres : resp.getD "result" (Json.obj []) = Json.obj [] := by
    simp [Json.getD, hres]
  constructor
  · simp only [call_tool_loop, mcp_recv, hid, if_true, herr, eres]
  · simp only [get_tool_list_loop, mcp_recv, hid, if_true, eres]
    rfl

/-- C10, witness: a bare matching envelope `{"id": 7}`. -/
theorem c10_missing_result_defaults_to_empty_witness :
    idMatches (Json.obj [("id", Json.num 7)]) 7 = true
    ∧ (call_tool_loop 1 1 7 [.json (Json.obj [("id", Json.num 7)])] = (.ok (Json.obj []), [])
       ∧ get_tool_list_loop 1 1 7 [.json (Json.obj [("id", Json.num 7)])]
           = (.ok (Json.arr []), [])) :=
  ⟨rfl, c10_missing_result_defaults_to_empty 0 0 7 _ [] rfl rfl rfl⟩
